import Mathlib

/-!
Verification of the airbnb-scanner-backend extraction engine (src/ml).

This file shallowly embeds the numeric, date and field-extraction logic of
`ml/ml_extractor.py`, `ml/email-classifier.py`, `ml/enhanced_payout_parser.py`
and `ml/classify_email.py` and proves/refutes the claims of the specification.

Conventions of the embedding:
- Python `float` values are modelled as exact rationals (`Rat`); Python
  `float(str)` is modelled by `pyFloat?` on the subset of literals the code
  can produce (optional sign, digits, decimal point, exponent; no
  underscores, no inf/nan).  Code that can raise is modelled in
  `Except String`; a caught exception corresponds to pattern matching on
  `.error`.
- Python `re` patterns used by the claims are embedded as terms of a small
  regex AST (`RE`) together with a backtracking matcher that implements
  Python's leftmost search, ordered alternation, and greedy/lazy repetition.
  Repetition is restricted to single-character classes, which covers every
  pattern modelled here and makes the matcher structurally recursive.
- `datetime.date` is modelled by `PyDate` with the standard civil-from-days
  day count (`toDays`), so `(a - b).days = toDays a - toDays b`.
-/

namespace Airbnb

/-- Characters matched by Python's `\s` (and by `str.isspace`): ASCII
whitespace plus the Unicode spaces appearing in these emails. -/
def isPyWs (c : Char) : Bool :=
  c = ' ' || c = '\t' || c = '\n' || c = '\x0d' || c = '\x0b' || c = '\x0c' ||
  c = '\u0085' || c = ' ' || c = ' ' ||
  (' ' ≤ c && c ≤ ' ') ||
  c = ' ' || c = ' ' || c = ' ' || c = ' ' || c = '　'

/-- ASCII lower-casing, as used for the `.lower()` calls and `re.IGNORECASE`
searches in the source (the non-ASCII letters å/ä/ö/é appearing in the
patterns are already lower case there). -/
def lowc (c : Char) : Char :=
  if 'A' ≤ c && c ≤ 'Z' then Char.ofNat (c.toNat + 32) else c

def lowerL (s : List Char) : List Char := s.map lowc

/-- `a.startsWith b` on char lists (used to implement substring search). -/
def startsL : List Char → List Char → Bool
  | _, [] => true
  | [], _ :: _ => false
  | c :: cs, d :: ds => c = d && startsL cs ds

/-- Python's `needle in hay` substring test. -/
def containsL (hay needle : List Char) : Bool :=
  match hay with
  | [] => startsL [] needle
  | _ :: rest => startsL hay needle || containsL rest needle

/-- Python `hay_str in s` on `String`s. -/
def pyIn (needle hay : String) : Bool := containsL hay.data needle.data

/-- Digits of a decimal literal to a natural number (`int(s)` on `\d+`). -/
def natOfDigits (s : List Char) : Nat :=
  s.foldl (fun a c => a * 10 + (c.toNat - '0'.toNat)) 0

def isDigitC (c : Char) : Bool := '0' ≤ c && c ≤ '9'

def allDigits (s : List Char) : Bool := s ≠ [] && s.all isDigitC

/-- `str.split(sep)` for a single-character separator (kernel-reducible
replacement for `String.splitOn`). -/
def splitOnC (sep : Char) : List Char → List (List Char)
  | [] => [[]]
  | c :: rest =>
    let r := splitOnC sep rest
    if c = sep then [] :: r
    else
      match r with
      | [] => [[c]]
      | g :: gs => (c :: g) :: gs

/-- `str.zfill(2)` for the day strings (`day.zfill(2)`). -/
def zfill2 (s : String) : String :=
  if s.length ≥ 2 then s else String.mk (List.replicate (2 - s.length) '0') ++ s

/-! ## Python `float(str)`

`pyFloat?` models `float` conversion of the numeric literals this code can
feed to it: optional surrounding whitespace, an optional sign, an integer
and/or fractional digit part (at least one digit), and an optional decimal
exponent.  Underscored literals and `inf`/`nan` are outside the modelled
subset.  Values are exact rationals. -/

def stripWs (s : List Char) : List Char :=
  ((s.dropWhile isPyWs).reverse.dropWhile isPyWs).reverse

def parseSign : List Char → (Bool × List Char)
  | '+' :: r => (false, r)
  | '-' :: r => (true, r)
  | s => (false, s)

/-- Mantissa part: `digits`, `digits.digits`, `digits.`, or `.digits`.
Returned as (all mantissa digits as an integer, number of fraction digits,
remaining input), so that evaluation stays in `Int`/`Nat` (kernel-reducible);
the rational value is attached by `pyNumVal`. -/
def parseMantissa (s : List Char) : Option (Int × Nat × List Char) :=
  let intPart := s.takeWhile isDigitC
  let rest := s.drop intPart.length
  match rest with
  | '.' :: r2 =>
    let fracPart := r2.takeWhile isDigitC
    let rest2 := r2.drop fracPart.length
    if intPart = [] && fracPart = [] then none
    else
      some ((natOfDigits (intPart ++ fracPart) : Int), fracPart.length, rest2)
  | _ =>
    if intPart = [] then none
    else some ((natOfDigits intPart : Int), 0, rest)

def parseExp (s : List Char) : Option (Int × List Char) :=
  match s with
  | 'e' :: r | 'E' :: r =>
    let (neg, r2) := parseSign r
    let ds := r2.takeWhile isDigitC
    if ds = [] then none
    else some (if neg then -(natOfDigits ds : Int) else (natOfDigits ds : Int), r2.drop ds.length)
  | _ => some (0, s)

/-- A parsed float literal: integer mantissa and decimal exponent;
the value is `mantissa * 10 ^ exp10`. -/
abbrev PyNum := Int × Int

def pyNumVal (p : PyNum) : Rat :=
  if 0 ≤ p.2 then (p.1 : Rat) * (10 : Rat) ^ p.2.toNat
  else (p.1 : Rat) / (10 : Rat) ^ (-p.2).toNat

def pyFloatL? (s : List Char) : Option PyNum :=
  let s := stripWs s
  let (neg, s1) := parseSign s
  match parseMantissa s1 with
  | none => none
  | some (m, fracLen, rest) =>
    match parseExp rest with
    | none => none
    | some (e, rest2) =>
      if rest2 ≠ [] then none
      else some (if neg then -m else m, e - (fracLen : Int))

def pyFloat? (s : String) : Option PyNum := pyFloatL? s.data

/-! ## Amount parsers

Three numeric normalizers exist in the source:
- `MLDataExtractor.parse_amount` (ml_extractor.py lines 276-291),
- the inline `EnhancedPayoutParser.normalize_amount` of classify_email.py
  (lines 47-77),
- `EnhancedPayoutParser.normalize_amount` of enhanced_payout_parser.py
  (lines 35-69).
Each is modelled by a `...Body` function in `Except String Rat` whose
`.error` case corresponds to the `ValueError` the wrapped `float` call can
raise, plus the total function obtained from the `try/except` handler. -/

/-- `re.sub(r'[\s ]+', '', s)` as used throughout the source. -/
def removeWs (s : List Char) : List Char := s.filter (fun c => !(isPyWs c))

def hasChar (s : List Char) (c : Char) : Bool := s.contains c

/-- The cleaned string `clean` of `MLDataExtractor.parse_amount`: whitespace
removed, then US interpretation (strip `,`) when both separators appear,
else `,` becomes the decimal point. -/
def parseAmountClean (s : String) : List Char :=
  let clean := removeWs s.data
  if hasChar clean ',' && hasChar clean '.' then clean.filter (· ≠ ',')
  else if hasChar clean ',' then clean.map (fun c => if c = ',' then '.' else c)
  else clean

/-- `MLDataExtractor.parse_amount`, body of the `try` block. -/
def parse_amountBody (s : String) : Except String PyNum :=
  match pyFloatL? (parseAmountClean s) with
  | some q => .ok q
  | none => .error "ValueError"

/-- `MLDataExtractor.parse_amount` (ml_extractor.py lines 276-291): the
bare `except` returns `0.0`. -/
def parse_amount (s : String) : Rat :=
  match parse_amountBody s with
  | .ok q => pyNumVal q
  | .error _ => 0

/-- Cleaning steps of classify_email.py's inline
`EnhancedPayoutParser.normalize_amount` (lines 52-72): strip `' '` and
`' '` only; if both separators appear the one occurring last is the
decimal mark; if only `,` appears and it splits into exactly two parts with
a two-digit tail, it is the decimal mark. -/
def ceNormalizeClean (s : String) : List Char :=
  let cleaned := s.data.filter (fun c => c ≠ ' ' && c ≠ ' ')
  if hasChar cleaned ',' && hasChar cleaned '.' then
    let lastComma := (cleaned.reverse.indexOf ',')
    let lastDot := (cleaned.reverse.indexOf '.')
    -- rfind: larger index from the left = smaller index from the right
    if lastDot < lastComma then cleaned.filter (· ≠ ',')
    else (cleaned.filter (· ≠ '.')).map (fun c => if c = ',' then '.' else c)
  else if hasChar cleaned ',' then
    let parts := splitOnC ',' cleaned
    match parts with
    | [a, b] => if b.length = 2 then a ++ '.' :: b else cleaned
    | _ => cleaned
  else cleaned

def ce_normalize_amountBody (s : String) : Except String PyNum :=
  if s = "" then .ok (0, 0)
  else
    match pyFloatL? (ceNormalizeClean s) with
    | some q => .ok q
    | none => .error "ValueError"

/-- classify_email.py `EnhancedPayoutParser.normalize_amount`
(lines 47-77): `except ValueError` returns `0.0`. -/
def ce_normalize_amount (s : String) : Rat :=
  match ce_normalize_amountBody s with
  | .ok q => pyNumVal q
  | .error _ => 0

/-- Cleaning steps of enhanced_payout_parser.py's
`EnhancedPayoutParser.normalize_amount` (lines 40-64).  The only-comma
branch first rewrites `,` to `.` when the text after the last comma has two
characters, then (on the already rewritten string) re-runs the two-part
check, which can no longer fire; both steps are modelled. -/
def eppNormalizeClean (s : String) : List Char :=
  let cleaned := s.data.filter (fun c => c ≠ ' ' && c ≠ ' ')
  if hasChar cleaned ',' && hasChar cleaned '.' then
    let lastComma := (cleaned.reverse.indexOf ',')
    let lastDot := (cleaned.reverse.indexOf '.')
    if lastDot < lastComma then cleaned.filter (· ≠ ',')
    else (cleaned.filter (· ≠ '.')).map (fun c => if c = ',' then '.' else c)
  else if hasChar cleaned ',' then
    let afterLast := (splitOnC ',' cleaned).getLastD []
    let cleaned1 :=
      if afterLast.length = 2 then cleaned.map (fun c => if c = ',' then '.' else c)
      else cleaned
    let parts := splitOnC ',' cleaned1
    match parts with
    | [a, b] => if b.length = 2 then a ++ '.' :: b else cleaned1
    | _ => cleaned1
  else cleaned

def epp_normalize_amountBody (s : String) : Except String PyNum :=
  if s = "" then .ok (0, 0)
  else
    match pyFloatL? (eppNormalizeClean s) with
    | some q => .ok q
    | none => .error "ValueError"

/-- enhanced_payout_parser.py `EnhancedPayoutParser.normalize_amount`
(lines 35-69). -/
def epp_normalize_amount (s : String) : Rat :=
  match epp_normalize_amountBody s with
  | .ok q => pyNumVal q
  | .error _ => 0


instance {ε α : Type} [DecidableEq ε] [DecidableEq α] : DecidableEq (Except ε α) := fun a b =>
  match a, b with
  | .ok x, .ok y =>
    if h : x = y then isTrue (by rw [h]) else isFalse (fun hh => by cases hh; exact h rfl)
  | .error x, .error y =>
    if h : x = y then isTrue (by rw [h]) else isFalse (fun hh => by cases hh; exact h rfl)
  | .ok _, .error _ => isFalse (fun h => by cases h)
  | .error _, .ok _ => isFalse (fun h => by cases h)

theorem pyNumVal_negExp (m : Int) (k : Nat) :
    pyNumVal (m, -(k : Int)) = (m : Rat) / (10 : Rat) ^ k := by
  unfold pyNumVal
  by_cases h : (0 : Int) ≤ -(k : Int)
  · have hk : k = 0 := by omega
    subst hk
    simp
  · rw [if_neg h]
    have : (-(-(k : Int))).toNat = k := by omega
    rw [this]

theorem parse_amount_of_body (s : String) (p : PyNum) (h : parse_amountBody s = .ok p) :
    parse_amount s = pyNumVal p := by
  unfold parse_amount
  rw [h]

theorem ce_normalize_amount_of_body (s : String) (p : PyNum)
    (h : ce_normalize_amountBody s = .ok p) : ce_normalize_amount s = pyNumVal p := by
  unfold ce_normalize_amount
  rw [h]

theorem epp_normalize_amount_of_body (s : String) (p : PyNum)
    (h : epp_normalize_amountBody s = .ok p) : epp_normalize_amount s = pyNumVal p := by
  unfold epp_normalize_amount
  rw [h]

/-! ## Dates

`datetime.date` is modelled by `PyDate`; `datetime(y, m, d)` raises
`ValueError` on out-of-range components, modelled by `mkDate` in
`Except String`.  `toDays` is the standard civil-from-days day count, so
that `(a - b).days` of the source is `toDays a - toDays b`. -/

structure PyDate where
  year : Int
  month : Int
  day : Int
deriving DecidableEq, Repr

def isLeap (y : Int) : Bool := y % 4 = 0 && (y % 100 ≠ 0 || y % 400 = 0)

def daysInMonth (y m : Int) : Int :=
  if m = 2 then (if isLeap y then 29 else 28)
  else if m = 4 || m = 6 || m = 9 || m = 11 then 30
  else 31

/-- `datetime` accepts years 1..9999 and in-range month/day. -/
def validDate (y m d : Int) : Bool :=
  1 ≤ y && y ≤ 9999 && 1 ≤ m && m ≤ 12 && 1 ≤ d && d ≤ daysInMonth y m

def mkDate (y m d : Int) : Except String PyDate :=
  if validDate y m d then .ok ⟨y, m, d⟩ else .error "ValueError"

/-- Civil-from-days day number (all intermediate quantities are nonnegative
for years ≥ 1, so integer-division conventions do not matter). -/
def toDays (dt : PyDate) : Int :=
  let y := if dt.month ≤ 2 then dt.year - 1 else dt.year
  let era := (if 0 ≤ y then y else y - 399) / 400
  let yoe := y - era * 400
  let mp := (dt.month + 9) % 12
  let doy := (153 * mp + 2) / 5 + dt.day - 1
  let doe := yoe * 365 + yoe / 4 - yoe / 100 + doy
  era * 146097 + doe - 719468

/-- `datetime.strptime(s, '%Y-%m-%d').date()`: three dash-separated digit
groups forming a valid date. -/
def strptimeYmd (s : String) : Option PyDate :=
  match splitOnC '-' s.data with
  | [ys, ms, ds] =>
    if allDigits ys && allDigits ms && allDigits ds then
      let y : Int := natOfDigits ys
      let m : Int := natOfDigits ms
      let d : Int := natOfDigits ds
      if validDate y m d then some ⟨y, m, d⟩ else none
    else none
  | _ => none

/-! ## `AirbnbEmailClassifier.get_reference_year`

email-classifier.py lines 274-341.  The ambient `datetime.now().date()` is
passed explicitly as `today`.  The email-date prologue (lines 276-297) is
split out as `refAnchor`; note the Python truthiness tests: an empty
`email_date` string and `scanning_year == 0` both select the fallback. -/

def refAnchorFallback (scanning_year : Option Int) (today : PyDate) :
    Except String (PyDate × Int) :=
  match scanning_year with
  | some sy =>
    if sy ≠ 0 then do
      let d ← mkDate sy 6 15
      pure (d, sy)
    else pure (today, today.year)
  | none => pure (today, today.year)

def refAnchor (email_date : Option String) (scanning_year : Option Int) (today : PyDate) :
    Except String (PyDate × Int) :=
  match email_date with
  | some s =>
    if s ≠ "" then
      match strptimeYmd s with
      | some d => pure (d, d.year)
      | none => pure (today, today.year)
    else refAnchorFallback scanning_year today
  | none => refAnchorFallback scanning_year today

def get_reference_year (email_date : Option String) (month day : Int)
    (scanning_year : Option Int) (today : PyDate) : Except String Int := do
  let (reference_date, reference_year) ← refAnchor email_date scanning_year today
  let candidate_date ← mkDate reference_year month day
  let days_diff := toDays candidate_date - toDays reference_date
  if 11 ≤ reference_date.month && month ≤ 2 && days_diff < -300 then
    pure (reference_year + 1)
  else if days_diff < 0 then do
    let next_year_candidate ← mkDate (reference_year + 1) month day
    let next_year_diff := toDays next_year_candidate - toDays reference_date
    if 1 ≤ next_year_diff && next_year_diff ≤ 540 then pure (reference_year + 1)
    else pure reference_year
  else if 540 < days_diff then pure (reference_year - 1)
  else pure reference_year

/-! ## A small regex engine

The `re` patterns cited by the claims are embedded as terms of `RE` and run
by a CPS backtracking matcher.  The matcher implements Python semantics:
ordered alternation, greedy (`*`, `?`, `+`) and lazy (`*?`) repetition with
backtracking, numbered capturing groups, and leftmost `re.search`.
Repetition (`star`) is over single-character classes only, which covers all
patterns below and keeps the matcher structurally recursive. -/

inductive RE where
  | eps : RE
  | cls (p : Char → Bool) : RE
  | lit (s : List Char) : RE
  | seq (a b : RE) : RE
  | alt (a b : RE) : RE
  | opt (greedy : Bool) (r : RE) : RE
  | star (greedy : Bool) (p : Char → Bool) : RE
  | group (i : Nat) (r : RE) : RE

/-- Captured groups: group index paired with matched text. -/
abbrev Groups := List (Nat × List Char)

def firstSome {α β : Type} (f : α → Option β) : List α → Option β
  | [] => none
  | x :: xs =>
    match f x with
    | some r => some r
    | none => firstSome f xs

/-- Suffixes remaining after the repetitions of `star p`, in backtracking
preference order (longest first when greedy, shortest first when lazy). -/
def starRests (greedy : Bool) (p : Char → Bool) (s : List Char) : List (List Char) :=
  let n := (s.takeWhile p).length
  let rests := (List.range (n + 1)).map (fun k => s.drop k)
  if greedy then rests.reverse else rests

def reM : RE → List Char → Groups → (List Char → Groups → Option Groups) → Option Groups
  | .eps, s, gs, k => k s gs
  | .cls p, s, gs, k =>
    match s with
    | [] => none
    | c :: rest => if p c then k rest gs else none
  | .lit l, s, gs, k => if startsL s l then k (s.drop l.length) gs else none
  | .seq a b, s, gs, k => reM a s gs (fun s' gs' => reM b s' gs' k)
  | .alt a b, s, gs, k =>
    match reM a s gs k with
    | some r => some r
    | none => reM b s gs k
  | .opt g r, s, gs, k =>
    if g then
      match reM r s gs k with
      | some res => some res
      | none => k s gs
    else
      match k s gs with
      | some res => some res
      | none => reM r s gs k
  | .star g p, s, gs, k => firstSome (fun s' => k s' gs) (starRests g p s)
  | .group i r, s, gs, k =>
    reM r s gs (fun s' gs' => k s' ((i, s.take (s.length - s'.length)) :: gs'))

/-- `re.search`: try a match at each position, leftmost wins. -/
def reSearch (r : RE) : List Char → Option Groups
  | [] => reM r [] [] (fun _ gs => some gs)
  | c :: rest =>
    match reM r (c :: rest) [] (fun _ gs => some gs) with
    | some gs => some gs
    | none => reSearch r rest

/-- `match.group(i)`; `none` models Python's `None` for an unmatched group. -/
def grp (gs : Groups) (i : Nat) : Option (List Char) :=
  (gs.find? (fun e => e.1 = i)).map (·.2)

def litS (s : String) : RE := .lit s.data

def rePlus (g : Bool) (p : Char → Bool) : RE := .seq (.cls p) (.star g p)

def altList : RE → List RE → RE
  | r, [] => r
  | r, x :: xs => .alt r (altList x xs)

def wsStar : RE := .star true isPyWs

def wsPlus : RE := rePlus true isPyWs

/-! ## email-classifier.py patterns and extraction models -/

/-- The character class `[\d\s,.]` of the money patterns. -/
def amtChar (c : Char) : Bool := isDigitC c || isPyWs c || c = ',' || c = '.'

/-- `self.patterns['host_earnings_eur']` (email-classifier.py line 84):
`(?:du tjänar|dina intäkter|your earnings|host earnings|Du tjänar|Dina intäkter)`
followed by one of the three tails
`\s*:?\s*\n?\s*€\s*([\d\s,.]+)`, `[^€]*?€\s*([\d\s,.]+)`,
`\s*\n\s*€\s*([\d\s,.]+)`.  The search runs under `re.IGNORECASE`, modelled
by matching on the ASCII-lowercased body, where the capitalized label
variants coincide with the lowercase ones. -/
def hostEarningsEurLabel : RE :=
  altList (litS "du tjänar")
    [litS "dina intäkter", litS "your earnings", litS "host earnings",
     litS "du tjänar", litS "dina intäkter"]

def hostEarningsEurTail1 : RE :=
  .seq wsStar (.seq (.opt true (.cls (· = ':'))) (.seq wsStar
    (.seq (.opt true (.cls (· = '\n'))) (.seq wsStar
      (.seq (litS "€") (.seq wsStar (.group 1 (rePlus true amtChar))))))))

def hostEarningsEurTail2 : RE :=
  .seq (.star false (· ≠ '€')) (.seq (litS "€") (.seq wsStar (.group 2 (rePlus true amtChar))))

def hostEarningsEurTail3 : RE :=
  .seq wsStar (.seq (.cls (· = '\n')) (.seq wsStar
    (.seq (litS "€") (.seq wsStar (.group 3 (rePlus true amtChar))))))

def hostEarningsEurRE : RE :=
  .seq hostEarningsEurLabel (.alt hostEarningsEurTail1 (.alt hostEarningsEurTail2 hostEarningsEurTail3))

/-- `match.group(1) or match.group(2) or match.group(3)` of line 737 (the
captured amounts are nonempty, so Python's `or` picks the first match). -/
def hostEarningsEurAmt (body : String) : Option (List Char) :=
  match reSearch hostEarningsEurRE (lowerL body.data) with
  | none => none
  | some gs =>
    match grp gs 1 with
    | some a => some a
    | none =>
      match grp gs 2 with
      | some a => some a
      | none => grp gs 3

/-- The comma/dot "smart format detection" shared by
`MLDataExtractor.parse_amount` (ml_extractor.py 282-287) and the host
earnings block of `extract_booking_data` (email-classifier.py 740-747):
with both separators present commas are thousands separators; with only
commas present the comma is the decimal mark. -/
def commaDotNormalize (clean : List Char) : List Char :=
  if hasChar clean ',' && hasChar clean '.' then clean.filter (· ≠ ',')
  else if hasChar clean ',' then clean.map (fun c => if c = ',' then '.' else c)
  else clean

/-- `AirbnbEmailClassifier.extract_booking_data`, host-earnings-EUR block
(email-classifier.py lines 732-754): search `host_earnings_eur`, strip
whitespace, normalize the separators, convert with `float`; a `ValueError`
leaves the field unset.  Subsequent SEK/2020/fallback blocks (lines
756-934) only run while `hostEarningsEur` is still unset, so a successful
parse here is final. -/
def hostEarningsEurPrimaryP (body : String) : Option PyNum :=
  match hostEarningsEurAmt body with
  | none => none
  | some amt => pyFloatL? (commaDotNormalize (removeWs amt))

def hostEarningsEurPrimary (body : String) : Option Rat :=
  (hostEarningsEurPrimaryP body).map pyNumVal

/-- `self.swedish_months` (email-classifier.py lines 111-118). -/
def swedishMonths (m : String) : Option String :=
  if m = "jan" || m = "januari" then some "01"
  else if m = "feb" || m = "februari" then some "02"
  else if m = "mar" || m = "mars" then some "03"
  else if m = "apr" || m = "april" then some "04"
  else if m = "maj" then some "05"
  else if m = "jun" || m = "juni" then some "06"
  else if m = "jul" || m = "juli" then some "07"
  else if m = "aug" || m = "augusti" then some "08"
  else if m = "sep" || m = "september" then some "09"
  else if m = "okt" || m = "oktober" then some "10"
  else if m = "nov" || m = "november" then some "11"
  else if m = "dec" || m = "december" then some "12"
  else none

def repN : Nat → RE → RE
  | 0, _ => .eps
  | n + 1, r => .seq r (repN n r)

def upAlnum (c : Char) : Bool := ('A' ≤ c && c ≤ 'Z') || isDigitC c

/-- `self.patterns['booking_code']` = `HM[A-Z0-9]{8,}` (line 42); the code
uses `match.group(0)`, modelled by wrapping the whole pattern in group 0. -/
def bookingCodeRE : RE :=
  .group 0 (.seq (litS "HM") (.seq (repN 8 (.cls upAlnum)) (.star true upAlnum)))

def bookingCodeSearch (t : String) : Option String :=
  match reSearch bookingCodeRE t.data with
  | none => none
  | some gs => (grp gs 0).map String.mk

def d12 (i : Nat) : RE := .group i (.seq (.cls isDigitC) (.opt true (.cls isDigitC)))

def monthsAbbrev : List String :=
  ["feb", "mar", "apr", "maj", "jun", "jul", "aug", "sep", "okt", "nov", "dec"]

/-- `self.patterns['date_range']` =
`(\d{1,2})–(\d{1,2})\s+(jan|feb|mar|apr|maj|jun|jul|aug|sep|okt|nov|dec)`
(line 72; the dash is U+2013, the search has no flags). -/
def dateRangeRE : RE :=
  .seq (d12 1) (.seq (litS "–") (.seq (d12 2)
    (.seq wsPlus (.group 3 (altList (litS "jan") (monthsAbbrev.map litS))))))

def dateRangeSearch (t : String) : Option (String × String × String) :=
  match reSearch dateRangeRE t.data with
  | none => none
  | some gs =>
    match grp gs 1, grp gs 2, grp gs 3 with
    | some a, some b, some c => some (String.mk a, String.mk b, String.mk c)
    | _, _, _ => none

/-- The fields of the `data` dict of `extract_booking_data`
(email-classifier.py lines 348-370) touched by the `cancellation` flow;
every field is initialized to `None` and the cancellation branch
(lines 1085-1092) writes only the two date fields (plus the shared
booking-code write of lines 374-377). -/
structure ExtractedData where
  bookingCode : Option String
  checkInDate : Option String
  checkOutDate : Option String
  hostEarningsEur : Option Rat
  hostEarningsSek : Option Rat
deriving DecidableEq, Repr

def emptyData : ExtractedData := ⟨none, none, none, none, none⟩

/-- `AirbnbEmailClassifier.extract_booking_data` for
`email_type == 'cancellation'`: booking code from `subject + ' ' + body`,
then the `date_range` pattern against the subject; on a match (with the
month necessarily in `swedish_months`) the dates are built with the
hard-coded year `2025`.  `email_date` and `scanning_year` are accepted (as
by the source function) but never consulted on this path. -/
def extract_cancellation (subject body : String) (email_date : Option String)
    (scanning_year : Option Int) : ExtractedData :=
  let _ := email_date
  let _ := scanning_year
  let bc := bookingCodeSearch (subject ++ " " ++ body)
  match dateRangeSearch subject with
  | some (start_day, end_day, month_sv) =>
    match swedishMonths month_sv with
    | some mm =>
      { emptyData with
        bookingCode := bc
        checkInDate := some ("2025-" ++ mm ++ "-" ++ zfill2 start_day)
        checkOutDate := some ("2025-" ++ mm ++ "-" ++ zfill2 end_day) }
    | none => { emptyData with bookingCode := bc }
  | none => { emptyData with bookingCode := bc }

/-- `self.patterns['nights']` =
`(?:Antal nätter|nätter?):\s*(\d+)|(\d+)\s+nätter?` (line 74, searched with
no flags at line 711). -/
def nightsRE : RE :=
  .alt
    (.seq (.alt (litS "Antal nätter") (.seq (litS "nätte") (.opt true (.cls (· = 'r')))))
      (.seq (litS ":") (.seq wsStar (.group 1 (rePlus true isDigitC)))))
    (.seq (.group 2 (rePlus true isDigitC))
      (.seq wsPlus (.seq (litS "nätte") (.opt true (.cls (· = 'r'))))))

/-- `nights_match.group(1) or nights_match.group(2)` (line 715). -/
def nightsGroup (body : String) : Option (List Char) :=
  match reSearch nightsRE body.data with
  | none => none
  | some gs =>
    match grp gs 1 with
    | some a => some a
    | none => grp gs 2

/-- The `nights` computation of the booking-confirmation branch
(email-classifier.py lines 697-719): with both dates present and parseable,
`nights = (checkout - checkin).days` is recorded only when positive;
otherwise the field is filled from an explicit `nätter` mention via
`int(...)`, with no positivity guard. -/
def computeNights (checkInDate checkOutDate : Option String) (cleaned_body : String) :
    Option Int :=
  let fromDates : Option Int :=
    match checkInDate, checkOutDate with
    | some ci, some co =>
      match strptimeYmd ci, strptimeYmd co with
      | some d1, some d2 =>
        let nights := toDays d2 - toDays d1
        if 0 < nights then some nights else none
      | _, _ => none
    | _, _ => none
  match fromDates with
  | some n => some n
  | none => (nightsGroup cleaned_body).map (fun ds => (natOfDigits ds : Int))

/-! ## The final date fallback of the booking-confirmation branch

email-classifier.py lines 565-695.  The two `re.findall` scans over the
body produce the date tokens `all_dates` (pattern with optional year, year
`''` when absent) and `year_dates` (explicit-year pattern); the model takes
these token lists as input and implements lines 586-695: merging,
year resolution, parsing with dedup, chronological sort, and the scored
pair selection. -/

/-- `str(n)` for the integers appearing here. -/
def natToStrAux : Nat → Nat → List Char
  | 0, _ => []
  | fuel + 1, n =>
    if n = 0 then []
    else natToStrAux fuel (n / 10) ++ [Char.ofNat ('0'.toNat + n % 10)]

def intToStr (i : Int) : String :=
  if i = 0 then "0"
  else if i < 0 then String.mk ('-' :: natToStrAux 30 (-i).toNat)
  else String.mk (natToStrAux 30 i.toNat)

/-- `has_year_version` (lines 597): an `all_dates` token is dropped when a
year-specific token with the same day and month string exists. -/
def hasYearVersion (year_dates : List (String × String × String)) (d m : String) : Bool :=
  year_dates.any (fun t => d = t.1 && m = t.2.1)

/-- Lines 604-619: resolve the year (via `get_reference_year` when the
token has none — an exception from there propagates), parse the formatted
string (a `ValueError` skips the token), and append unless the date string
is already present. -/
def buildParsed (email_date : Option String) (scanning_year : Option Int) (today : PyDate) :
    List (String × String × String) → List (PyDate × String) →
    Except String (List (PyDate × String))
  | [], acc => pure acc
  | (day, month, year) :: rest, acc =>
    match swedishMonths (String.mk (lowerL month.data)) with
    | none => buildParsed email_date scanning_year today rest acc
    | some mm => do
      let yearS ←
        if year = "" then do
          let y ← get_reference_year email_date (natOfDigits mm.data) (natOfDigits day.data)
            scanning_year today
          pure (intToStr y)
        else pure year
      let dstr := yearS ++ "-" ++ mm ++ "-" ++ zfill2 day
      match strptimeYmd dstr with
      | none => buildParsed email_date scanning_year today rest acc
      | some dobj =>
        if acc.any (fun e => e.2 = dstr) then
          buildParsed email_date scanning_year today rest acc
        else
          buildParsed email_date scanning_year today rest (acc ++ [(dobj, dstr)])

/-- `parsed_dates.sort(key=lambda x: x[0])` (line 622): stable ascending
sort by date, as insertion sort. -/
def insertByDays (x : PyDate × String) : List (PyDate × String) → List (PyDate × String)
  | [] => [x]
  | y :: ys => if toDays y.1 ≤ toDays x.1 then y :: insertByDays x ys else x :: y :: ys

def sortByDays (l : List (PyDate × String)) : List (PyDate × String) :=
  l.foldl (fun acc x => insertByDays x acc) []

/-- Lines 648-657: a date counts as explicit-year when some `year_dates`
token has a nonempty year, the same day (as a string), and a month word
mapping to the same month number.  (`checkin_month` is read back from the
formatted date string, which always reparses to the date's own month.) -/
def hasExplicitYear (year_dates : List (String × String × String)) (d : PyDate) : Bool :=
  year_dates.any fun t =>
    t.2.2 ≠ "" && t.1 = intToStr d.day &&
      (match swedishMonths (String.mk (lowerL t.2.1.data)) with
       | some mm => (natOfDigits mm.data : Int) = d.month
       | none => false)

/-- The pair score of lines 636-679. -/
def pairScore (year_dates : List (String × String × String)) (ci co : PyDate)
    (nights : Int) : Int :=
  let s : Int := 0
  let s := if hasExplicitYear year_dates ci && hasExplicitYear year_dates co then s + 20 else s
  let s := if ci.day ≠ co.day then s + 10 else s
  let s :=
    if ci.year = co.year then s + 3
    else if (ci.year - co.year).natAbs = 1 && nights ≤ 14 then s + 4
    else s
  if 2 ≤ nights && nights ≤ 7 then s + 3
  else if 8 ≤ nights && nights ≤ 14 then s + 2
  else s

/-- All index pairs `i < j` in loop order (lines 628-629). -/
def pairsInOrder {α : Type} : List α → List (α × α)
  | [] => []
  | x :: xs => xs.map (fun y => (x, y)) ++ pairsInOrder xs

/-- The best-pair loop of lines 625-687, including the tie-break of line
684: on equal score a pair replaces the incumbent only when its check-in
year is strictly later (with no incumbent the comparison collapses to
`score > best_score`). -/
def pickBestLoop (year_dates : List (String × String × String)) :
    List ((PyDate × String) × (PyDate × String)) →
    Option ((PyDate × String) × (PyDate × String)) → Int →
    Option ((PyDate × String) × (PyDate × String))
  | [], best, _ => best
  | (ci, co) :: rest, best, bestScore =>
    let nights := toDays co.1 - toDays ci.1
    if 1 ≤ nights && nights ≤ 30 then
      let score := pairScore year_dates ci.1 co.1 nights
      let takeIt :=
        match best with
        | none => decide (bestScore < score)
        | some b => decide (bestScore < score) ||
            (decide (score = bestScore) && decide (b.1.1.year < ci.1.year))
      if takeIt then pickBestLoop year_dates rest (some (ci, co)) score
      else pickBestLoop year_dates rest best bestScore
    else pickBestLoop year_dates rest best bestScore

/-- Lines 689-695: the winning pair, else the first two parsed dates, else
nothing. -/
def pickBestPair (year_dates : List (String × String × String))
    (parsed : List (PyDate × String)) : Option (String × String) :=
  match pickBestLoop year_dates (pairsInOrder parsed) none 0 with
  | some (ci, co) => some (ci.2, co.2)
  | none =>
    match parsed with
    | a :: b :: _ => some (a.2, b.2)
    | _ => none

/-- Lines 586-695 end to end: token merge, year resolution and parsing,
sort, scored pair selection. -/
def fallbackDatePair (all_dates year_dates : List (String × String × String))
    (email_date : Option String) (scanning_year : Option Int) (today : PyDate) :
    Except String (Option (String × String)) := do
  let combined := year_dates ++
    all_dates.filter (fun t => !(hasYearVersion year_dates t.1 t.2.1))
  let parsed ← buildParsed email_date scanning_year today combined []
  pure (pickBestPair year_dates (sortByDays parsed))

/-! ## `MLDataExtractor` (ml_extractor.py)

Candidates are the output of `extract_candidate_entities`: an amount
candidate carries the captured amount text (`value`), the full regex match
including the currency marker (`full_match`), the ±50-character context
window and the match start offset; name candidates carry their cleaned
value.  `basic_extraction` and the trained branch of `extract_data` consume
these candidates. -/

structure AmountCand where
  value : String
  fullMatch : String
  context : String
  start : Nat
deriving DecidableEq, Repr

structure Cands where
  amounts : List AmountCand
  names : List String
deriving DecidableEq, Repr

/-- `parse_amount` kept in mantissa/exponent form; the float value is
`pyNumVal`.  Sign tests on the float (`<= 0`, `> 0`) are equivalently sign
tests on the mantissa (`pyNumVal_pos`). -/
def parse_amountP (s : String) : PyNum :=
  match parse_amountBody s with
  | .ok p => p
  | .error _ => (0, 0)

theorem parse_amountP_val (s : String) : pyNumVal (parse_amountP s) = parse_amount s := by
  unfold parse_amountP parse_amount
  match h : parse_amountBody s with
  | .ok p => rfl
  | .error e => simp [pyNumVal]

theorem pyNumVal_pos (p : PyNum) : 0 < pyNumVal p ↔ 0 < p.1 := by
  unfold pyNumVal
  split
  · constructor
    · intro h
      by_contra hc
      have h1 : (p.1 : Rat) ≤ 0 := by exact_mod_cast (by omega : p.1 ≤ 0)
      have h2 : (0 : Rat) < (10 : Rat) ^ p.2.toNat := by positivity
      nlinarith
    · intro h
      have h1 : (0 : Rat) < (p.1 : Rat) := by exact_mod_cast h
      have h2 : (0 : Rat) < (10 : Rat) ^ p.2.toNat := by positivity
      positivity
  · constructor
    · intro h
      by_contra hc
      have h1 : (p.1 : Rat) ≤ 0 := by exact_mod_cast (by omega : p.1 ≤ 0)
      have h2 : (0 : Rat) < (10 : Rat) ^ (-p.2).toNat := by positivity
      have := div_nonpos_of_nonpos_of_nonneg h1 (le_of_lt h2)
      linarith
    · intro h
      have h1 : (0 : Rat) < (p.1 : Rat) := by exact_mod_cast h
      have h2 : (0 : Rat) < (10 : Rat) ^ (-p.2).toNat := by positivity
      positivity

/-- The pattern `kr\s+sek\s+x\s*\d+\s*nätter` of ml_extractor.py line 360
(searched with `re.IGNORECASE` against the already-lowercased context). -/
def krSekNatterRE : RE :=
  .seq (litS "kr") (.seq wsPlus (.seq (litS "sek") (.seq wsPlus
    (.seq (litS "x") (.seq wsStar (.seq (rePlus true isDigitC) (.seq wsStar (litS "nätter"))))))))

/-- Line 362: `kr\s+sek\s+x\s*\d+\s*nätter.*?` followed by the escaped
amount text (`.` does not match a newline). -/
def krSekNatterThenValueRE (value : String) : RE :=
  .seq krSekNatterRE (.seq (.star false (· ≠ '\n')) (.lit value.data))

/-- The priority classification of one amount candidate,
ml_extractor.py lines 337-372: `(field, value, priority, pattern)` or
nothing (value not positive, or no branch matched). -/
def amountPriority (a : AmountCand) : Option (String × PyNum × Int × String) :=
  let context := String.mk (lowerL a.context.data)
  let full_match := String.mk (lowerL a.fullMatch.data)
  let amount_value := parse_amountP a.value
  if amount_value.1 ≤ 0 then none
  else
    let has_eur_symbol := pyIn "€" full_match
    let has_sek_symbol := pyIn "kr" full_match
    if pyIn "totalt (eur)" context || (pyIn "totalt" context && pyIn "eur" context) then
      some ("hostEarningsEur", amount_value, 100, "TOTALT EUR pattern")
    else if (pyIn "gäst" context || pyIn "totalt" context) && has_eur_symbol then
      some ("guestTotalEur", amount_value, 90, "Guest total EUR pattern")
    else if (pyIn "du tjänar" context || pyIn "tjänar" context) && has_eur_symbol then
      some ("hostEarningsEur", amount_value, 80, "Du tjänar EUR pattern")
    else if (pyIn "du tjänar" context || pyIn "tjänar" context) && has_sek_symbol then
      some ("hostEarningsSek", amount_value, 85, "Du tjänar SEK pattern")
    else if pyIn "utbetalning" context && has_sek_symbol then
      if (reSearch krSekNatterRE context.data).isSome then
        if (reSearch (krSekNatterThenValueRE a.value) context.data).isSome then
          some ("hostEarningsSek", amount_value, 95, "Utbetalning total after kr SEK x nätter")
        else
          some ("hostEarningsSek", amount_value, 75, "Utbetalning per-night rate before kr SEK x nätter")
      else
        some ("hostEarningsSek", amount_value, 90, "Utbetalning SEK pattern")
    else if pyIn "städ" context && has_eur_symbol then
      some ("cleaningFeeEur", amount_value, 60, "Cleaning fee EUR pattern")
    else none

/-- `priorities.sort(key=lambda x: x[2], reverse=True)` (line 375): stable
descending sort by priority, as insertion sort. -/
def insertByPriorityDesc (x : String × PyNum × Int × String) :
    List (String × PyNum × Int × String) → List (String × PyNum × Int × String)
  | [] => [x]
  | y :: ys =>
    if x.2.2.1 ≤ y.2.2.1 then y :: insertByPriorityDesc x ys else x :: y :: ys

def sortByPriorityDesc (l : List (String × PyNum × Int × String)) :
    List (String × PyNum × Int × String) :=
  l.foldl (fun acc x => insertByPriorityDesc x acc) []

/-- Lines 377-382: walk the sorted priorities, first hit per field wins. -/
def assignFields : List (String × PyNum × Int × String) → List (String × PyNum) →
    List String → List (String × PyNum)
  | [], res, _ => res
  | (f, v, _, _) :: rest, res, seen =>
    if seen.contains f then assignFields rest res seen
    else assignFields rest (res ++ [(f, v)]) (seen ++ [f])

/-- The `results` dict restricted to the amount fields, plus `guestName`. -/
structure ExtractResults where
  fields : List (String × PyNum)
  guestName : Option String
deriving DecidableEq, Repr

def dictGet (l : List (String × PyNum)) (k : String) : Option PyNum :=
  (l.find? (fun e => e.1 = k)).map (·.2)

/-- `MLDataExtractor.basic_extraction` (ml_extractor.py lines 327-389) over
the candidate lists: classify every amount, stable-sort by descending
priority, assign first hit per field; `guestName` is the first name
candidate (lines 385-387). -/
def basic_extraction (cands : Cands) (email_type : String) : ExtractResults :=
  let _ := email_type
  let priorities := cands.amounts.filterMap amountPriority
  let fields := assignFields (sortByPriorityDesc priorities) [] []
  { fields := fields, guestName := cands.names.head? }

/-- Python dict assignment `results[k] = v` (overwrites in place). -/
def dictSet (l : List (String × PyNum)) (k : String) (v : PyNum) : List (String × PyNum) :=
  if l.any (fun e => e.1 = k) then l.map (fun e => if e.1 = k then (k, v) else e)
  else l ++ [(k, v)]

/-- `extract_context_features` (ml_extractor.py lines 182-213). -/
structure CtxFeatures where
  posFrac : Rat
  has_totalt : Bool
  has_du_tjanar : Bool
  has_earnings : Bool
  has_payout : Bool
  has_guest_total : Bool
  has_cleaning : Bool
  has_service : Bool
  has_nightly : Bool
  has_eur_currency : Bool
  has_sek_currency : Bool
  is_confirmation : Bool
  is_payout : Bool
  is_reminder : Bool
  near_total : Bool
  near_host : Bool
  near_guest : Bool

def extract_context_features (a : AmountCand) (textLen : Nat) (email_type : String) :
    CtxFeatures :=
  let context := String.mk (lowerL a.context.data)
  { posFrac := (a.start : Rat) / (textLen : Rat)
    has_totalt := pyIn "totalt" context
    has_du_tjanar := pyIn "du tjänar" context || pyIn "tjänar" context
    has_earnings := pyIn "earnings" context
    has_payout := pyIn "utbetalning" context || pyIn "payout" context
    has_guest_total := pyIn "gästens" context || pyIn "guest total" context
    has_cleaning := pyIn "städ" context || pyIn "cleaning" context
    has_service := pyIn "service" context || pyIn "avgift" context
    has_nightly := pyIn "natt" context || pyIn "nightly" context
    has_eur_currency := pyIn "eur" context || pyIn "€" context
    has_sek_currency := pyIn "kr" context || pyIn "sek" context
    is_confirmation := email_type = "booking_confirmation"
    is_payout := email_type = "payout"
    is_reminder := email_type = "booking_reminder"
    near_total := pyIn "totalt" context || pyIn "total" context
    near_host := pyIn "värd" context || pyIn "host" context
    near_guest := pyIn "gäst" context || pyIn "guest" context }

/-- `MLDataExtractor.extract_data` (ml_extractor.py lines 293-325).  The
trained amount classifier is abstracted as a function from the feature
vector to `(predicted field, confidence)`; `none` is the untrained state
(`if not self.amount_classifier`), which falls back to `basic_extraction`.
In the trained branch a prediction is kept when the confidence exceeds 0.5,
the class is not `'other'`, and the parsed amount is positive. -/
def extract_data (clf : Option (CtxFeatures → String × Rat)) (cands : Cands)
    (email_type : String) (textLen : Nat) : ExtractResults :=
  match clf with
  | none => basic_extraction cands email_type
  | some predict =>
    let fields := cands.amounts.foldl (fun res a =>
      let features := extract_context_features a textLen email_type
      let pred := predict features
      if 1/2 < pred.2 && pred.1 ≠ "other" then
        let p := parse_amountP a.value
        if 0 < p.1 then dictSet res pred.1 p else res
      else res) []
    { fields := fields, guestName := cands.names.head? }

/-- The spec's running example, as scanned from the body
`"... TOTALT (EUR)   € 389,13 ... Du tjänar: € 128,50 ..."` of the
ml_extractor.py self-test (lines 420-426): the two amount candidates with
their ±50-character context windows. -/
def c389 : AmountCand :=
  { value := "389,13", fullMatch := "€ 389,13",
    context := "SOME TEXT BEFORE\n    TOTALT (EUR)   € 389,13\n    MORE TEXT", start := 26 }

def c128 : AmountCand :=
  { value := "128,50", fullMatch := "€ 128,50",
    context := "MORE TEXT\n    Du tjänar: € 128,50\n    Bokning bekräftad", start := 70 }

/-- C7: Cold-start fallback equivalence — with no trained amount classifier
(`None` is Python-falsy), `MLDataExtractor.extract_data` returns exactly
the field mapping of the deterministic heuristic fallback
`basic_extraction` alone. -/
theorem C7_cold_start_equivalence (cands : Cands) (email_type : String) (textLen : Nat) :
    extract_data none cands email_type textLen = basic_extraction cands email_type := rfl

/-- C5: Cross-year year resolution — whenever the anchor parsed from
`email_date` has month November or December, the candidate month is
January or February, and the candidate placed in the anchor's year lies
more than 300 days before the anchor, `get_reference_year` returns the
anchor's year plus one. -/
theorem C5_cross_year_rule (s : String) (d : PyDate) (month day : Int)
    (scanning_year : Option Int) (today : PyDate)
    (hs : s ≠ "") (hd : strptimeYmd s = some d)
    (hm : 11 ≤ d.month) (hc : month ≤ 2)
    (hv : validDate d.year month day = true)
    (hdiff : toDays ⟨d.year, month, day⟩ - toDays d < -300) :
    get_reference_year (some s) month day scanning_year today = .ok (d.year + 1) := by
  simp only [get_reference_year, refAnchor, if_pos hs, hd, mkDate, hv, if_true, bind, Except.bind,
    pure]
  simp [Except.pure, hv, hm, hc, hdiff]

/-- C5 (witness): the spec's concrete instance — anchor `2025-12-20`,
candidate month/day `01/05`, resolved year `2026`. -/
theorem C5_cross_year_rule_witness :
    get_reference_year (some "2025-12-20") 1 5 none ⟨2025, 1, 1⟩ = .ok 2026 :=
  C5_cross_year_rule "2025-12-20" ⟨2025, 12, 20⟩ 1 5 none ⟨2025, 1, 1⟩
    (by decide) (by decide) (by decide) (by decide) (by decide) (by decide)

/-- C10 (amended): whenever `get_reference_year` returns at all (rather
than raising a `ValueError` from one of its `datetime` constructions), the
returned year differs from the anchor year — the year resolved by the
email-date/scanning-year/current-date fallback chain — by at most one. -/
theorem C10_year_within_one (ed : Option String) (m d : Int) (sy : Option Int)
    (today rd : PyDate) (Y r : Int)
    (h1 : refAnchor ed sy today = .ok (rd, Y))
    (h2 : get_reference_year ed m d sy today = .ok r) :
    r = Y - 1 ∨ r = Y ∨ r = Y + 1 := by
  simp only [get_reference_year, h1, bind, Except.bind, pure, Except.pure] at h2
  split at h2
  · cases h2
  · split at h2
    · injection h2 with h
      omega
    · split at h2
      · split at h2
        · cases h2
        · split at h2
          · injection h2 with h
            omega
          · injection h2 with h
            omega
      · split at h2
        · injection h2 with h
          omega
        · injection h2 with h
          omega

/-- C9: for every cancellation email whose subject matches the compact
`D–D month` date-range pattern, the extracted `checkInDate`/`checkOutDate`
carry the hard-coded year `2025`, and the whole extraction result is
independent of the email's send date and of the scanning-year hint. -/
theorem C9_hardcoded_2025 (subject body : String) (sd edy m mm : String)
    (hm : dateRangeSearch subject = some (sd, edy, m))
    (hmm : swedishMonths m = some mm) :
    (∀ ed sy, (extract_cancellation subject body ed sy).checkInDate =
        some ("2025-" ++ mm ++ "-" ++ zfill2 sd) ∧
      (extract_cancellation subject body ed sy).checkOutDate =
        some ("2025-" ++ mm ++ "-" ++ zfill2 edy)) ∧
    (∀ ed ed' sy sy', extract_cancellation subject body ed sy =
      extract_cancellation subject body ed' sy') := by
  constructor
  · intro ed sy
    simp [extract_cancellation, hm, hmm]
  · intro _ _ _ _
    rfl

/-- C9 (witness): concrete cancellation subject `13–15 jul` with an
email date in 2023 and scanning year 2022 still yields 2025 dates. -/
theorem C9_witness :
    (extract_cancellation "Bokningen 13–15 jul har avbokats" "b" (some "2023-05-05")
      (some 2022)).checkInDate = some "2025-07-13" ∧
    (extract_cancellation "Bokningen 13–15 jul har avbokats" "b" (some "2023-05-05")
      (some 2022)).checkOutDate = some "2025-07-15" := by
  have h := (C9_hardcoded_2025 "Bokningen 13–15 jul har avbokats" "b" "13" "15" "jul" "07"
    (by decide) (by decide)).1 (some "2023-05-05") (some 2022)
  rw [show ("2025-" ++ "07" ++ "-" ++ zfill2 "13") = "2025-07-13" from by decide,
    show ("2025-" ++ "07" ++ "-" ++ zfill2 "15") = "2025-07-15" from by decide] at h
  exact h

/-- C2 (amended): on the cancellation path of `extract_booking_data` the
earnings fields are never written at all — for every subject, body, email
date and scanning year, `hostEarningsEur` and `hostEarningsSek` remain
`None` (the field is left absent, not set to the number 0). -/
theorem C2_earnings_absent (subject body : String) (ed : Option String) (sy : Option Int) :
    (extract_cancellation subject body ed sy).hostEarningsEur = none ∧
    (extract_cancellation subject body ed sy).hostEarningsSek = none := by
  rcases h1 : dateRangeSearch subject with _ | ⟨⟨sd, edy, m⟩⟩
  · simp [extract_cancellation, h1, emptyData]
  · rcases h2 : swedishMonths m with _ | mm <;>
      simp [extract_cancellation, h1, h2, emptyData]

/-- C2 (counterexample): a cancellation email whose subject matches the
date-range pattern (so the branch demonstrably runs) has
`hostEarningsEur ≠ some 0` and `hostEarningsSek ≠ some 0` — the claim that
the engine sets them to the value zero is false; they are left absent. -/
theorem C2_counterexample :
    (extract_cancellation "Bokningen 13–15 jul har avbokats" "" none none).checkInDate =
      some "2025-07-13" ∧
    (extract_cancellation "Bokningen 13–15 jul har avbokats" "" none none).hostEarningsEur ≠
      some 0 ∧
    (extract_cancellation "Bokningen 13–15 jul har avbokats" "" none none).hostEarningsSek ≠
      some 0 := by decide

/-- C8: normalizer totality — both `MLDataExtractor.parse_amount` and the
classify_email `normalize_amount` are total functions (the embedding's
`Except` bodies are caught by the `try/except` handlers), and on any input
whose cleaned form the `float` conversion rejects they return `0.0`. -/
theorem C8_zero_on_unparseable (s t : String) :
    (pyFloatL? (parseAmountClean s) = none → parse_amount s = 0) ∧
    (pyFloatL? (ceNormalizeClean t) = none → ce_normalize_amount t = 0) := by
  constructor
  · intro h
    unfold parse_amount parse_amountBody
    rw [h]
  · intro h
    unfold ce_normalize_amount ce_normalize_amountBody
    by_cases ht : t = ""
    · rw [if_pos ht]
      simp [pyNumVal]
    · rw [if_neg ht, h]

/-- C8 (witness): concrete unparseable inputs map to `0.0`. -/
theorem C8_witness : parse_amount "abc" = 0 ∧ ce_normalize_amount "12,34,56" = 0 :=
  ⟨(C8_zero_on_unparseable "abc" "12,34,56").1 (by decide),
   (C8_zero_on_unparseable "abc" "12,34,56").2 (by decide)⟩

/-- C6 (counterexample): the claim that an emitted `nights` is strictly
positive is false — with no extracted dates and a body containing
`Antal nätter: 0`, the text fallback of lines 710-719 emits `nights = 0`
(the `int(...)` conversion has no positivity guard). -/
theorem C6_counterexample : computeNights none none "Antal nätter: 0" = some 0 := by decide

/-- C6 (amended): `nights` computed from the two extracted dates equals
the day difference check-out minus check-in and is recorded only when
strictly positive; any `nights` the engine emits (date-derived or parsed
from an explicit `nätter` mention) is nonnegative, but the text-derived
value may be `0` and need not equal the day difference. -/
theorem C6_amended :
    (∀ ci co d1 d2 body, strptimeYmd ci = some d1 → strptimeYmd co = some d2 →
      0 < toDays d2 - toDays d1 →
      computeNights (some ci) (some co) body = some (toDays d2 - toDays d1)) ∧
    (∀ ci co body n, computeNights ci co body = some n → 0 ≤ n) := by
  have htext : ∀ (body : String) (n : Int),
      (nightsGroup body).map (fun ds => ((natOfDigits ds : Int))) = some n → 0 ≤ n := by
    intro body n hh
    rcases ho : nightsGroup body with _ | ds
    · rw [ho] at hh
      simp at hh
    · rw [ho] at hh
      simp at hh
      omega
  constructor
  · intro ci co d1 d2 body h1 h2 hpos
    simp only [computeNights, h1, h2]
    simp [hpos]
  · intro ci co body n h
    rcases ci with _ | ci'
    · simp only [computeNights] at h
      exact htext body n h
    rcases co with _ | co'
    · simp only [computeNights] at h
      exact htext body n h
    simp only [computeNights] at h
    rcases hs1 : strptimeYmd ci' with _ | dd1
    · rw [hs1] at h
      dsimp only at h
      exact htext body n h
    rcases hs2 : strptimeYmd co' with _ | dd2
    · rw [hs1, hs2] at h
      dsimp only at h
      exact htext body n h
    rw [hs1, hs2] at h
    dsimp only at h
    by_cases hp : 0 < toDays dd2 - toDays dd1
    · rw [if_pos hp] at h
      injection h with hv
      omega
    · rw [if_neg hp] at h
      exact htext body n h

/-- C6 (witness): dates `2025-07-13` to `2025-07-15` give `nights = 2`,
which is nonnegative. -/
theorem C6_witness :
    computeNights (some "2025-07-13") (some "2025-07-15") "" = some 2 ∧ (0 : Int) ≤ 2 := by
  have h := C6_amended.1 "2025-07-13" "2025-07-15" ⟨2025, 7, 13⟩ ⟨2025, 7, 15⟩ ""
    (by decide) (by decide) (by decide)
  rw [show toDays ⟨2025, 7, 15⟩ - toDays ⟨2025, 7, 13⟩ = 2 from by decide] at h
  exact ⟨h, C6_amended.2 (some "2025-07-13") (some "2025-07-15") "" 2 h⟩

/-- C4: Date pair selection — from the year-less tokens
{13 juli, 27 juli, 15 juli} with the anchor year known (email date
`2025-06-01`), the scored pair-selection fallback picks
`(2025-07-13, 2025-07-15)` (2 nights, score 16) and not
`(2025-07-13, 2025-07-27)` (14 nights, score 15). -/
theorem C4_pair_selection :
    fallbackDatePair [("13", "juli", ""), ("27", "juli", ""), ("15", "juli", "")] []
      (some "2025-06-01") none ⟨2025, 1, 1⟩ = .ok (some ("2025-07-13", "2025-07-15")) ∧
    fallbackDatePair [("13", "juli", ""), ("27", "juli", ""), ("15", "juli", "")] []
      (some "2025-06-01") none ⟨2025, 1, 1⟩ ≠ .ok (some ("2025-07-13", "2025-07-27")) := by
  constructor
  · decide
  · decide

/-- C3 (counterexample): `MLDataExtractor.parse_amount` does not treat
the last-occurring separator as the decimal mark — on `"1.234,56"` it
strips the commas and returns `1.23456`, not `1234.56`. -/
theorem C3_counterexample :
    parse_amount "1.234,56" = 123456/100000 ∧ parse_amount "1.234,56" ≠ 123456/100 := by
  have h : parse_amount "1.234,56" = 123456/100000 := by
    rw [parse_amount_of_body _ (123456, -5) (by decide),
      show ((-5 : Int)) = -((5 : Nat) : Int) from rfl, pyNumVal_negExp]
    norm_num
  refine ⟨h, ?_⟩
  rw [h]
  norm_num

/-- C3 (amended): the last-separator rule holds for
`EnhancedPayoutParser.normalize_amount`, which maps all four spec examples
to `1234.56`; `MLDataExtractor.parse_amount` agrees on `"1 234,56"`,
`"1,234.56"` and `"1234,56"` (but not on `"1.234,56"`, see the
counterexample). -/
theorem C3_amended :
    epp_normalize_amount "1 234,56" = 123456/100 ∧
    epp_normalize_amount "1,234.56" = 123456/100 ∧
    epp_normalize_amount "1234,56" = 123456/100 ∧
    epp_normalize_amount "1.234,56" = 123456/100 ∧
    parse_amount "1 234,56" = 123456/100 ∧
    parse_amount "1,234.56" = 123456/100 ∧
    parse_amount "1234,56" = 123456/100 := by
  refine ⟨?_, ?_, ?_, ?_, ?_, ?_, ?_⟩
  · rw [epp_normalize_amount_of_body _ (123456, -2) (by decide),
      show ((-2 : Int)) = -((2 : Nat) : Int) from rfl, pyNumVal_negExp]
    norm_num
  · rw [epp_normalize_amount_of_body _ (123456, -2) (by decide),
      show ((-2 : Int)) = -((2 : Nat) : Int) from rfl, pyNumVal_negExp]
    norm_num
  · rw [epp_normalize_amount_of_body _ (123456, -2) (by decide),
      show ((-2 : Int)) = -((2 : Nat) : Int) from rfl, pyNumVal_negExp]
    norm_num
  · rw [epp_normalize_amount_of_body _ (123456, -2) (by decide),
      show ((-2 : Int)) = -((2 : Nat) : Int) from rfl, pyNumVal_negExp]
    norm_num
  · rw [parse_amount_of_body _ (123456, -2) (by decide),
      show ((-2 : Int)) = -((2 : Nat) : Int) from rfl, pyNumVal_negExp]
    norm_num
  · rw [parse_amount_of_body _ (123456, -2) (by decide),
      show ((-2 : Int)) = -((2 : Nat) : Int) from rfl, pyNumVal_negExp]
    norm_num
  · rw [parse_amount_of_body _ (123456, -2) (by decide),
      show ((-2 : Int)) = -((2 : Nat) : Int) from rfl, pyNumVal_negExp]
    norm_num

/-- C10 (counterexample): `(2, 29)` is a valid calendar date in the
anchor year 2024, yet `get_reference_year` raises a `ValueError` (from
`datetime(2025, 2, 29)` in the next-year probe) instead of returning a
year. -/
theorem C10_counterexample :
    validDate 2024 2 29 = true ∧
    get_reference_year (some "2024-12-01") 2 29 none ⟨2025, 1, 1⟩ = .error "ValueError" := by
  decide

/-- C10 (witness): instantiating the amended theorem at anchor
`2025-12-20`, candidate `01/05` (result year 2026, anchor year 2025). -/
theorem C10_witness :
    (2026 : Int) = 2025 - 1 ∨ (2026 : Int) = 2025 ∨ (2026 : Int) = 2025 + 1 :=
  C10_year_within_one (some "2025-12-20") 1 5 none ⟨2025, 1, 1⟩ ⟨2025, 12, 20⟩ 2025 2026
    (by decide) (by decide)

/-- Helper: every priority `amountPriority` can emit is at most 100. -/
theorem amountPriority_le_100 (a : AmountCand) (r : String × PyNum × Int × String)
    (h : amountPriority a = some r) : r.2.2.1 ≤ 100 := by
  unfold amountPriority at h
  dsimp only at h
  split at h
  · cases h
  · split at h
    · cases h
      simp
    · split at h
      · cases h
        simp
      · split at h
        · cases h
          simp
        · split at h
          · cases h
            simp
          · split at h
            · split at h
              · split at h
                · cases h
                  simp
                · cases h
                  simp
              · cases h
                simp
            · split at h
              · cases h
                simp
              · cases h

/-- C1 (amended): in `MLDataExtractor.basic_extraction`, the
`TOTALT (EUR)`-labelled amount (`389,13` of the spec's example, candidate
`c389`) fills `hostEarningsEur` with strict priority: whatever the second
scanned amount candidate is — in particular the `Du tjänar: € 128,50` one —
the extracted `hostEarningsEur` is `389.13`. -/
theorem C1_totalt_priority (c2 : AmountCand) :
    (dictGet (basic_extraction ⟨[c389, c2], []⟩ "booking_confirmation").fields
      "hostEarningsEur").map pyNumVal = some ((38913 : Rat)/100) := by
  have h1 : amountPriority c389 =
      some ("hostEarningsEur", (38913, -2), 100, "TOTALT EUR pattern") := by decide
  have hval : pyNumVal (38913, -2) = (38913 : Rat)/100 := by
    rw [show ((-2 : Int)) = -((2 : Nat) : Int) from rfl, pyNumVal_negExp]
    norm_num
  rcases h2 : amountPriority c2 with _ | ⟨f, v, p, tag⟩
  · simp [basic_extraction, h1, h2, sortByPriorityDesc, insertByPriorityDesc, assignFields,
      dictGet, hval]
  · have hp : p ≤ 100 := by
      have := amountPriority_le_100 c2 _ h2
      simpa using this
    by_cases hf : f = "hostEarningsEur"
    · subst hf
      simp [basic_extraction, h1, h2, sortByPriorityDesc, insertByPriorityDesc, assignFields,
        dictGet, hp, hval]
    · simp [basic_extraction, h1, h2, sortByPriorityDesc, insertByPriorityDesc, assignFields,
        dictGet, hp, hf, hval]

/-- C1 (counterexample): the claim fails for the legacy extraction engine
`AirbnbEmailClassifier.extract_booking_data`: its `host_earnings_eur`
pattern is keyed on the `Du tjänar` label, so on a body containing both
`TOTALT (EUR) € 389,13` and `Du tjänar: € 128,50` it sets
`hostEarningsEur = 128.50` — the value the claim says is never chosen. -/
theorem C1_counterexample :
    hostEarningsEurPrimary "TOTALT (EUR) € 389,13\nDu tjänar: € 128,50" =
      some ((1285 : Rat)/10) ∧
    ((1285 : Rat)/10) ≠ (38913 : Rat)/100 := by
  constructor
  · unfold hostEarningsEurPrimary
    rw [show hostEarningsEurPrimaryP "TOTALT (EUR) € 389,13\nDu tjänar: € 128,50" =
      some (12850, -2) from by decide]
    simp only [Option.map_some']
    rw [show ((-2 : Int)) = -((2 : Nat) : Int) from rfl, pyNumVal_negExp]
    norm_num
  · norm_num

end Airbnb
